import Mathlib

/-
Verification development for the authentication and account-recovery
subsystem of the Audiobook-Manager repository.  The HTTP handlers of
library/backend/api_modular/auth.py are embedded as pure functions over an
explicit store state.  Repository operations whose implementation modules
are not part of the sources (auth/models.py, auth/database.py,
auth/backup_codes.py, auth/totp.py - only auth/__init__.py, the API layer
and the tests are present) are modelled from the specification, as marked
in their doc comments.  Randomness (session tokens, TOTP secrets, fresh
backup codes) is passed in as explicit parameters; cryptographic hashing
(SHA-256 of tokens, the salted KDF of backup codes) is modelled as the
identity on the hashed text, because the code observes hashes only through
equality.  Wall-clock time is an explicit natural number of seconds.
-/

namespace AuthSpec

/-- Model of Python str.strip: drop whitespace from both ends. -/
def pyStrip (s : String) : String :=
  String.mk (((s.data.dropWhile Char.isWhitespace).reverse.dropWhile Char.isWhitespace).reverse)

/-- Model of Python s.split(",")[0]: the characters before the first comma
(the whole string when there is no comma). -/
def firstCommaField (s : String) : String :=
  String.mk (s.data.takeWhile (fun c => c != ','))

/-- Model of Python str.lower. -/
def pyLower (s : String) : String :=
  String.mk (s.data.map Char.toLower)

/-- Authentication factor kind of a user (auth.models.AuthType). -/
inductive AuthType
  | totp
  | webauthn
  deriving DecidableEq

/-- A user row (auth.models.User), with the fields the API layer reads. -/
structure User where
  id : Nat
  username : String
  authType : AuthType
  authCredential : List Nat
  canDownload : Bool
  isAdmin : Bool
  recoveryEmail : Option String
  recoveryPhone : Option String
  recoveryEnabled : Bool
  lastLogin : Option Nat
  deriving DecidableEq

/-- A session row (auth.models.Session).  The stored token is the hash of
the raw cookie token. -/
structure Session where
  userId : Nat
  tokenHash : String
  userAgent : String
  ipAddress : String
  createdAt : Nat
  lastSeen : Nat
  deriving DecidableEq

/-- A backup-code row (auth.backup_codes.BackupCode): hashed code and a
nullable consumption timestamp. -/
structure BackupCode where
  userId : Nat
  codeHash : String
  usedAt : Option Nat
  deriving DecidableEq

/-- A pending-registration row (auth.models.PendingRegistration). -/
structure PendingRegistration where
  username : String
  tokenHash : String
  createdAt : Nat
  expiresAt : Nat
  deriving DecidableEq

/-- A pending-recovery row for magic-link login (PendingRecovery). -/
structure PendingRecovery where
  userId : Nat
  tokenHash : String
  expiresAt : Nat
  usedAt : Option Nat
  deriving DecidableEq

/-- Status of an inbox message (auth.models.InboxStatus). -/
inductive InboxStatus
  | unread
  | read
  | replied
  | archived
  deriving DecidableEq

/-- Reply-method field of an inbox message (auth.models.ReplyMethod). -/
inductive ReplyMethod
  | inApp
  | email
  deriving DecidableEq

/-- An inbox message row (auth.models.InboxMessage). -/
structure InboxMessage where
  id : Nat
  fromUserId : Nat
  message : String
  replyVia : ReplyMethod
  replyEmail : Option String
  status : InboxStatus
  createdAt : Nat
  readAt : Option Nat
  repliedAt : Option Nat
  deriving DecidableEq

/-- The encrypted store: every table the modelled endpoints touch, plus a
surrogate-id counter for user creation. -/
structure Store where
  users : List User
  sessions : List Session
  backupCodes : List BackupCode
  pendingRegs : List PendingRegistration
  pendingRecoveries : List PendingRecovery
  inbox : List InboxMessage
  nextUserId : Nat
  deriving DecidableEq

/-- The store in its freshly-bootstrapped state. -/
def Store.empty : Store :=
  ⟨[], [], [], [], [], [], 1⟩

/-- Modelled from the spec: hash_token (auth/database.py is not in src)
computes SHA-256 of a token.  Only equality of hashes is observable, so the
hash is modelled as the identity. -/
def hash_token (t : String) : String := t

/-- Modelled from the spec: backup-code input normalization
(auth/backup_codes.py is not in src) strips whitespace and hyphens and
uppercases before hashing against candidates. -/
def normalize_code (code : String) : String :=
  String.mk ((code.data.filter (fun c => !(c == '-' || c.isWhitespace))).map Char.toUpper)

/-- UserRepository.get_by_username: exact-match lookup. -/
def getByUsername (st : Store) (username : String) : Option User :=
  st.users.find? (fun u => u.username == username)

/-- UserRepository.get_by_id. -/
def getUserById (st : Store) (uid : Nat) : Option User :=
  st.users.find? (fun u => u.id == uid)

/-- Modelled from the spec: SessionRepository.get_by_token (auth/models.py
is not in src) hashes the raw token and looks the session up. -/
def sessionByToken (st : Store) (rawToken : String) : Option Session :=
  st.sessions.find? (fun s => s.tokenHash == hash_token rawToken)

/-- Modelled from the spec: session.invalidate deletes the session row
(identified here by its token hash; raw tokens are 256-bit random, so the
hash identifies the row). -/
def invalidateSession (st : Store) (tokenHash : String) : Store :=
  { st with sessions := st.sessions.filter (fun s => s.tokenHash != tokenHash) }

/-- Modelled from the spec: invalidate_user_sessions deletes every session
of the given user. -/
def invalidate_user_sessions (st : Store) (uid : Nat) : Store :=
  { st with sessions := st.sessions.filter (fun s => s.userId != uid) }

/-- Modelled from the spec: Session.create_for_user stores the hash of a
fresh random token and, atomically in the same transaction, invalidates
all other sessions of the user. -/
def createForUser (st : Store) (uid : Nat) (now : Nat)
    (rawToken userAgent ipAddress : String) : Store :=
  { st with sessions :=
      (st.sessions.filter (fun s => s.userId != uid)) ++
        [⟨uid, hash_token rawToken, userAgent, ipAddress, now, now⟩] }

/-- Modelled from the spec: a session is stale when its last_seen is older
than the grace window. -/
def Session.is_stale (s : Session) (now graceMinutes : Nat) : Bool :=
  graceMinutes * 60 < now - s.lastSeen

/-- Modelled from the spec: session.touch updates last_seen, rate-limited
to at most one update per 60 seconds. -/
def Session.touch (s : Session) (now : Nat) : Session :=
  if 60 ≤ now - s.lastSeen then { s with lastSeen := now } else s

/-- Store-level touch of the session identified by a token hash. -/
def touchSession (st : Store) (tokenHash : String) (now : Nat) : Store :=
  { st with sessions :=
      st.sessions.map (fun s => if s.tokenHash == tokenHash then s.touch now else s) }

/-- user.update_last_login / user.last_login assignment followed by save. -/
def update_last_login (st : Store) (uid now : Nat) : Store :=
  { st with users :=
      st.users.map (fun u => if u.id == uid then { u with lastLogin := some now } else u) }

/-- The per-row update of the credential rotation: replace the
auth_credential of the given user and set auth_type to TOTP. -/
def rotateCredUser (uid : Nat) (secret : List Nat) (u : User) : User :=
  if u.id == uid then { u with authCredential := secret, authType := AuthType.totp } else u

/-- recover_with_backup_code rotates the credential: user.auth_credential
is replaced and user.auth_type set to TOTP, then user.save. -/
def saveUserCredential (st : Store) (uid : Nat) (secret : List Nat) : Store :=
  { st with users := st.users.map (rotateCredUser uid secret) }

/-- A backup-code row of the given user whose stored hash equals the
normalized candidate. -/
def matchesCode (uid : Nat) (norm : String) (b : BackupCode) : Bool :=
  b.userId == uid && b.codeHash == norm

/-- A matching backup-code row that is still unused. -/
def unusedMatch (uid : Nat) (norm : String) (b : BackupCode) : Bool :=
  matchesCode uid norm b && b.usedAt == none

/-- Helper for verify_and_consume: mark the first unused matching code of
the user as used, or report that none matches. -/
def consumeFirst (codes : List BackupCode) (uid : Nat) (norm : String) (now : Nat) :
    Option (List BackupCode) :=
  match codes with
  | [] => none
  | b :: rest =>
    if unusedMatch uid norm b then
      some ({ b with usedAt := some now } :: rest)
    else
      match consumeFirst rest uid norm now with
      | none => none
      | some rest2 => some (b :: rest2)

/-- Modelled from the spec: BackupCodeRepository.verify_and_consume
(auth/backup_codes.py is not in src) normalizes the input, atomically
checks it against the unused hashed codes of the user and marks the match
used in a single transaction; it returns whether a code was consumed. -/
def verify_and_consume (st : Store) (uid : Nat) (code : String) (now : Nat) :
    Bool × Store :=
  match consumeFirst st.backupCodes uid (normalize_code code) now with
  | none => (false, st)
  | some codes2 => (true, { st with backupCodes := codes2 })

/-- BackupCodeRepository.get_remaining_count: unused codes of the user. -/
def get_remaining_count (st : Store) (uid : Nat) : Nat :=
  (st.backupCodes.filter (fun b => b.userId == uid && b.usedAt == none)).length

/-- Modelled from the spec: create_codes_for_user deletes all unused codes
of the user and inserts the fresh set, whose plaintext is returned to the
caller.  The fresh plaintext codes are a parameter here. -/
def create_codes_for_user (st : Store) (uid : Nat) (freshCodes : List String) : Store :=
  { st with backupCodes :=
      (st.backupCodes.filter (fun b => !(b.userId == uid && b.usedAt == none))) ++
        freshCodes.map (fun c => ⟨uid, normalize_code c, none⟩) }

/-- PendingRegistrationRepository.get_by_token. -/
def regByToken (st : Store) (rawToken : String) : Option PendingRegistration :=
  st.pendingRegs.find? (fun r => r.tokenHash == hash_token rawToken)

/-- Modelled from the spec: a pending registration is expired when now is
past its expires_at. -/
def PendingRegistration.is_expired (r : PendingRegistration) (now : Nat) : Bool :=
  r.expiresAt < now

/-- Modelled from the spec: reg.consume deletes the single-use pending
registration row (identified by its token hash). -/
def consumeReg (st : Store) (tokenHash : String) : Store :=
  { st with pendingRegs := st.pendingRegs.filter (fun r => r.tokenHash != tokenHash) }

/-- PendingRegistrationRepository.delete_for_username. -/
def deleteRegsForUsername (st : Store) (username : String) : Store :=
  { st with pendingRegs := st.pendingRegs.filter (fun r => r.username != username) }

/-- PendingRecoveryRepository.get_by_token. -/
def recoveryByToken (st : Store) (rawToken : String) : Option PendingRecovery :=
  st.pendingRecoveries.find? (fun r => r.tokenHash == hash_token rawToken)

/-- Modelled from the spec: a pending recovery is expired past expires_at. -/
def PendingRecovery.is_expired (r : PendingRecovery) (now : Nat) : Bool :=
  r.expiresAt < now

/-- Modelled from the spec: a pending recovery is used when used_at is set. -/
def PendingRecovery.is_used (r : PendingRecovery) : Bool :=
  r.usedAt != none

/-- PendingRecoveryRepository.delete_for_user. -/
def deleteRecoveriesForUser (st : Store) (uid : Nat) : Store :=
  { st with pendingRecoveries := st.pendingRecoveries.filter (fun r => r.userId != uid) }

/-- Modelled from the spec: PendingRecovery.create stores the hashed fresh
token with the given TTL in minutes. -/
def createRecovery (st : Store) (uid now : Nat) (rawToken : String)
    (expiryMinutes : Nat) : Store :=
  { st with pendingRecoveries :=
      st.pendingRecoveries ++ [⟨uid, hash_token rawToken, now + expiryMinutes * 60, none⟩] }

/-- Modelled from the spec: recovery.mark_used sets used_at. -/
def markRecoveryUsed (st : Store) (tokenHash : String) (now : Nat) : Store :=
  { st with pendingRecoveries :=
      st.pendingRecoveries.map (fun r =>
        if r.tokenHash == tokenHash then { r with usedAt := some now } else r) }

/-- Modelled from the spec and test_inbox.py: InboxMessage.mark_replied
(auth/models.py is not in src) sets status to REPLIED, records replied_at
and clears reply_email, all in the same transaction (here: one pure state
update). -/
def InboxMessage.mark_replied (m : InboxMessage) (now : Nat) : InboxMessage :=
  { m with status := InboxStatus.replied, repliedAt := some now, replyEmail := none }

/-- Persisted form of mark_replied: update the row with the given id. -/
def markRepliedById (st : Store) (mid now : Nat) : Store :=
  { st with inbox :=
      st.inbox.map (fun m => if m.id == mid then m.mark_replied now else m) }

/-- InboxRepository.get_by_id. -/
def inboxGetById (st : Store) (mid : Nat) : Option InboxMessage :=
  st.inbox.find? (fun m => m.id == mid)

/-- Structured response bodies of the modelled endpoints.  Fields that are
deterministic functions of the listed ones (provisioning URI, fixed
message and warning texts of success bodies) are elided. -/
inductive RespBody
  | errorMsg (msg : String)
  | successTrue
  | simpleSuccess (msg : String)
  | loginSuccess (id : Nat) (username : String) (canDownload isAdmin : Bool)
  | recoverSuccess (username totpSecret : String) (backupCodes : List String)
      (remainingOldCodes : Nat)
  | registerSuccess (username : String) (userId : Nat) (totpSecret : String)
      (backupCodes : List String) (recoveryEnabled : Bool)
  | magicVerifySuccess (username : String)
  deriving DecidableEq

/-- An HTTP response: status code and body. -/
structure Resp where
  status : Nat
  body : RespBody
  deriving DecidableEq

def renderBool (b : Bool) : String :=
  if b then "true" else "false"

def renderStringList (xs : List String) : String :=
  match xs with
  | [] => ""
  | [c] => "\"" ++ c ++ "\""
  | c :: rest => "\"" ++ c ++ "\", " ++ renderStringList rest

/-- Canonical, injective serialization of a response body to bytes, used
to state byte-identity of responses. -/
def RespBody.render : RespBody → String
  | .errorMsg m => "\x7b\"error\": \"" ++ m ++ "\"\x7d"
  | .successTrue => "\x7b\"success\": true\x7d"
  | .simpleSuccess m => "\x7b\"success\": true, \"message\": \"" ++ m ++ "\"\x7d"
  | .loginSuccess i u cd ad =>
      "\x7b\"success\": true, \"user\": \x7b\"id\": " ++ toString i ++
        ", \"username\": \"" ++ u ++ "\", \"can_download\": " ++ renderBool cd ++
        ", \"is_admin\": " ++ renderBool ad ++ "\x7d\x7d"
  | .recoverSuccess u sec codes rem =>
      "\x7b\"success\": true, \"username\": \"" ++ u ++ "\", \"totp_secret\": \"" ++ sec ++
        "\", \"backup_codes\": [" ++ renderStringList codes ++
        "], \"remaining_old_codes\": " ++ toString rem ++ "\x7d"
  | .registerSuccess u uid sec codes re =>
      "\x7b\"success\": true, \"username\": \"" ++ u ++ "\", \"user_id\": " ++ toString uid ++
        ", \"totp_secret\": \"" ++ sec ++ "\", \"backup_codes\": [" ++ renderStringList codes ++
        "], \"recovery_enabled\": " ++ renderBool re ++ "\x7d"
  | .magicVerifySuccess u =>
      "\x7b\"success\": true, \"message\": \"Login successful\", \"username\": \"" ++ u ++ "\"\x7d"

/-- The generic response message of POST /auth/magic-link. -/
def genericMagicMessage : String :=
  "If an account exists with that username and has a registered email, a login link has been sent. Please check your email."

/-- POST /auth/login (auth.py, login).  verifyTotp stands for
auth.totp.verify_code (auth/totp.py is not in src); the fresh session
token, user agent and remote address are explicit inputs. -/
def login (st : Store) (now : Nat) (username code : String)
    (verifyTotp : List Nat → String → Bool)
    (freshToken userAgent ipAddress : String) : Resp × Store :=
  let uname := pyStrip username
  let c := pyStrip code
  if uname == "" || c == "" then
    (⟨400, .errorMsg "Username and code are required"⟩, st)
  else
    match getByUsername st uname with
    | none => (⟨401, .errorMsg "Invalid credentials"⟩, st)
    | some user =>
      if user.authType = AuthType.totp then
        if verifyTotp user.authCredential c then
          let st1 := createForUser st user.id now freshToken userAgent ipAddress
          let st2 := update_last_login st1 user.id now
          (⟨200, .loginSuccess user.id user.username user.canDownload user.isAdmin⟩, st2)
        else
          (⟨401, .errorMsg "Invalid credentials"⟩, st)
      else
        (⟨400, .errorMsg "Authentication method not supported"⟩, st)

/-- Session resolution from the cookie (auth.py, get_current_user): looks
the session up by token, reaps it when stale or orphaned, touches it and
returns the user otherwise. -/
def getCurrentUser (st : Store) (now : Nat) (cookieToken : Option String) :
    Option User × Store :=
  match cookieToken with
  | none => (none, st)
  | some tok =>
    match sessionByToken st tok with
    | none => (none, st)
    | some s =>
      if s.is_stale now 30 then
        (none, invalidateSession st s.tokenHash)
      else
        match getUserById st s.userId with
        | none => (none, invalidateSession st s.tokenHash)
        | some u => (some u, touchSession st s.tokenHash now)

/-- The session that get_current_user leaves in the request context
(g._current_session): resolved exactly when a user is resolved. -/
def currentSession (st : Store) (now : Nat) (cookieToken : Option String) :
    Option Session :=
  match cookieToken with
  | none => none
  | some tok =>
    match sessionByToken st tok with
    | none => none
    | some s =>
      if s.is_stale now 30 then none
      else
        match getUserById st s.userId with
        | none => none
        | some _ => some s

/-- POST /auth/logout (auth.py, logout): invalidate the current session if
one resolves, always 200. -/
def logout (st : Store) (now : Nat) (cookieToken : Option String) : Resp × Store :=
  let st1 := (getCurrentUser st now cookieToken).2
  match currentSession st now cookieToken with
  | some s => (⟨200, .successTrue⟩, invalidateSession st1 s.tokenHash)
  | none => (⟨200, .successTrue⟩, st1)

/-- POST /auth/register/start (auth.py, start_registration). -/
def startRegistration (st : Store) (now : Nat) (username : String)
    (freshToken : String) : Resp × Store :=
  let uname := pyStrip username
  if uname.data.length < 5 then
    (⟨400, .errorMsg "Username must be at least 5 characters"⟩, st)
  else if 16 < uname.data.length then
    (⟨400, .errorMsg "Username must be at most 16 characters"⟩, st)
  else if !(uname.data.all (fun c => 32 ≤ c.toNat && c.toNat ≤ 126)) then
    (⟨400, .errorMsg "Username must contain only printable ASCII characters"⟩, st)
  else if st.users.any (fun u => u.username == uname) then
    (⟨400, .errorMsg "Username already taken"⟩, st)
  else
    let st1 := deleteRegsForUsername st uname
    let st2 := { st1 with pendingRegs :=
      st1.pendingRegs ++ [⟨uname, hash_token freshToken, now, now + 15 * 60⟩] }
    (⟨200, .simpleSuccess "Registration started. Please check your email/SMS for verification."⟩, st2)

/-- Optional request fields arrive as an optional string, empty after
stripping meaning absent (Python: data.get(k, "").strip() or None). -/
def normOptField (f : Option String) : Option String :=
  match f with
  | none => none
  | some s => if pyStrip s == "" then none else some (pyStrip s)

/-- POST /auth/register/verify (auth.py, verify_registration).  The fresh
TOTP secret, its base32 form and the fresh plaintext backup codes stand
for the random generation in setup_totp and generate_backup_codes. -/
def verifyRegistration (st : Store) (now : Nat) (token authTypeStr : String)
    (recoveryEmailIn recoveryPhoneIn : Option String)
    (freshSecret : List Nat) (freshBase32 : String) (freshCodes : List String) :
    Resp × Store :=
  let tok := pyStrip token
  let aty := pyLower (pyStrip authTypeStr)
  let re := normOptField recoveryEmailIn
  let rp := normOptField recoveryPhoneIn
  let recEnabled := re.isSome || rp.isSome
  if tok == "" then
    (⟨400, .errorMsg "Verification token required"⟩, st)
  else if aty != "totp" then
    (⟨400, .errorMsg "Unsupported auth type."⟩, st)
  else
    match regByToken st tok with
    | none => (⟨400, .errorMsg "Invalid or expired verification token"⟩, st)
    | some reg =>
      if reg.is_expired now then
        (⟨400, .errorMsg "Verification token has expired"⟩, consumeReg st reg.tokenHash)
      else
        let uid := st.nextUserId
        let user : User :=
          ⟨uid, reg.username, AuthType.totp, freshSecret, true, false, re, rp, recEnabled, none⟩
        let st1 := { st with users := st.users ++ [user], nextUserId := uid + 1 }
        let st2 := create_codes_for_user st1 uid freshCodes
        let st3 := consumeReg st2 reg.tokenHash
        (⟨200, .registerSuccess reg.username uid freshBase32 freshCodes recEnabled⟩, st3)

/-- POST /auth/recover/backup-code (auth.py, recover_with_backup_code):
look the user up, verify-and-consume the code, then rotate the TOTP
credential, regenerate the backup codes and invalidate the sessions. -/
def recoverWithBackupCode (st : Store) (now : Nat) (username backupCode : String)
    (freshSecret : List Nat) (freshBase32 : String) (freshCodes : List String) :
    Resp × Store :=
  let uname := pyStrip username
  let code := pyStrip backupCode
  if uname == "" || code == "" then
    (⟨400, .errorMsg "Username and backup_code are required"⟩, st)
  else
    match getByUsername st uname with
    | none => (⟨401, .errorMsg "Invalid username or backup code"⟩, st)
    | some user =>
      match verify_and_consume st user.id code now with
      | (false, _) => (⟨401, .errorMsg "Invalid username or backup code"⟩, st)
      | (true, st1) =>
        let remaining := get_remaining_count st1 user.id
        let st2 := saveUserCredential st1 user.id freshSecret
        let st3 := create_codes_for_user st2 user.id freshCodes
        let st4 := invalidate_user_sessions st3 user.id
        (⟨200, .recoverSuccess user.username freshBase32 freshCodes remaining⟩, st4)

/-- The post-consumption tail of recover_with_backup_code after the first
completed follow-up repository transactions: credential rotation (step 1),
code regeneration (step 2), session invalidation (step 3).  Each step is
its own committed transaction in the handler. -/
def recoverAfterConsume (st1 : Store) (uid : Nat) (freshSecret : List Nat)
    (freshCodes : List String) (completed : Nat) : Store :=
  let st2 := if 1 ≤ completed then saveUserCredential st1 uid freshSecret else st1
  let st3 := if 2 ≤ completed then create_codes_for_user st2 uid freshCodes else st2
  if 3 ≤ completed then invalidate_user_sessions st3 uid else st3

/-- The committed store observable when the recover handler fails after
consuming the backup code with only the first completed follow-up steps
done (completed = 3 is the full run; no enclosing transaction exists in
the handler, so committed steps persist). -/
def recoverObservedOnFailure (st : Store) (now : Nat) (username backupCode : String)
    (freshSecret : List Nat) (freshCodes : List String) (completed : Nat) : Store :=
  match getByUsername st (pyStrip username) with
  | none => st
  | some user =>
    match verify_and_consume st user.id (pyStrip backupCode) now with
    | (false, _) => st
    | (true, st1) => recoverAfterConsume st1 user.id freshSecret freshCodes completed

/-- POST /auth/magic-link (auth.py, request_magic_link).  emailSendOk is
the outcome of the SMTP attempt; the fresh recovery token is an input. -/
def requestMagicLink (st : Store) (now : Nat) (username : String)
    (freshToken : String) (emailSendOk : Bool) : Resp × Store :=
  let uname := pyStrip username
  if uname == "" then
    (⟨400, .errorMsg "Username is required"⟩, st)
  else
    match getByUsername st uname with
    | none => (⟨200, .simpleSuccess genericMagicMessage⟩, st)
    | some user =>
      if !user.recoveryEnabled || (match user.recoveryEmail with
          | none => true
          | some e => e == "") then
        (⟨200, .simpleSuccess genericMagicMessage⟩, st)
      else
        let st1 := deleteRecoveriesForUser st user.id
        let st2 := createRecovery st1 user.id now freshToken 15
        if emailSendOk then
          (⟨200, .simpleSuccess genericMagicMessage⟩, st2)
        else
          (⟨200, .simpleSuccess genericMagicMessage⟩, st2)

/-- POST /auth/magic-link/verify (auth.py, verify_magic_link). -/
def verifyMagicLink (st : Store) (now : Nat) (token : String)
    (freshSessionToken userAgent ipAddress : String) : Resp × Store :=
  let tok := pyStrip token
  if tok == "" then
    (⟨400, .errorMsg "Token is required"⟩, st)
  else
    match recoveryByToken st tok with
    | none => (⟨400, .errorMsg "Invalid or expired token"⟩, st)
    | some pr =>
      if pr.is_expired now then
        (⟨400, .errorMsg "Token has expired. Please request a new link."⟩, st)
      else if pr.is_used then
        (⟨400, .errorMsg "This link has already been used"⟩, st)
      else
        match getUserById st pr.userId with
        | none => (⟨400, .errorMsg "User not found"⟩, st)
        | some user =>
          let st1 := markRecoveryUsed st pr.tokenHash now
          let st2 := invalidate_user_sessions st1 user.id
          let st3 := createForUser st2 user.id now freshSessionToken userAgent ipAddress
          let st4 := update_last_login st3 user.id now
          (⟨200, .magicVerifySuccess user.username⟩, st4)

/-- POST /auth/recover/regenerate-codes (auth.py, regenerate_backup_codes),
behind login_required. -/
def regenerateCodes (st : Store) (now : Nat) (cookieToken : Option String)
    (freshCodes : List String) : Resp × Store :=
  match getCurrentUser st now cookieToken with
  | (none, st1) => (⟨401, .errorMsg "Authentication required"⟩, st1)
  | (some u, st1) =>
    (⟨200, .simpleSuccess "New backup codes generated. Your old codes are no longer valid."⟩,
      create_codes_for_user st1 u.id freshCodes)

/-- POST /auth/recover/update-contact (auth.py, update_recovery_contact),
behind login_required.  The outer Option is field presence in the JSON
body, the inner Option is a null value. -/
def updateContact (st : Store) (now : Nat) (cookieToken : Option String)
    (emailField phoneField : Option (Option String)) : Resp × Store :=
  match getCurrentUser st now cookieToken with
  | (none, st1) => (⟨401, .errorMsg "Authentication required"⟩, st1)
  | (some u, st1) =>
    let newEmail := match emailField with
      | none => u.recoveryEmail
      | some none => none
      | some (some e) => if e == "" then none else some (pyStrip e)
    let newPhone := match phoneField with
      | none => u.recoveryPhone
      | some none => none
      | some (some p) => if p == "" then none else some (pyStrip p)
    let enabled :=
      (match newEmail with | none => false | some e => e != "") ||
      (match newPhone with | none => false | some p => p != "")
    let st2 := { st1 with users := st1.users.map (fun v =>
      if v.id == u.id then
        { v with recoveryEmail := newEmail, recoveryPhone := newPhone,
                 recoveryEnabled := enabled }
      else v) }
    (⟨200, .successTrue⟩, st2)

/-- The localhost_only guard (auth.py, localhost_only), as the predicate
deciding rejection with 404: the direct remote address is checked first,
and only when it is not local is X-Forwarded-For consulted. -/
def localhost_only_rejects (remoteAddr xff : String) : Bool :=
  if ["127.0.0.1", "::1", "localhost"].contains remoteAddr then
    false
  else
    let addr := if xff != "" then pyStrip (firstCommaField xff) else remoteAddr
    !(["127.0.0.1", "::1", "localhost"].contains addr)

/-- The localhost_only guard as the specification words it (C7): reject
exactly when the client address - X-Forwarded-For[0] when that header is
present, else the remote address - is not in the set of 127.0.0.1 and ::1.
Stated for comparison with localhost_only_rejects. -/
def spec_localhost_rejects (remoteAddr xff : String) : Bool :=
  let addr := if xff != "" then pyStrip (firstCommaField xff) else remoteAddr
  !(["127.0.0.1", "::1"].contains addr)

/-- Number of un-reaped sessions of a user in the store. -/
def sessionCount (st : Store) (uid : Nat) : Nat :=
  st.sessions.countP (fun s => s.userId == uid)

/-- Invariant S1: at most one un-reaped session per user. -/
def SessInv (st : Store) : Prop :=
  ∀ uid : Nat, sessionCount st uid ≤ 1

/-- States reachable from the bootstrapped store through the modelled
endpoints, with arbitrary request data, clock values, randomness and TOTP
verifier. -/
inductive Reachable : Store → Prop
  | emptyStore : Reachable Store.empty
  | doLogin (st : Store) (now : Nat) (username code : String)
      (vt : List Nat → String → Bool) (ft ua ip : String) :
      Reachable st → Reachable (login st now username code vt ft ua ip).2
  | doLogout (st : Store) (now : Nat) (ck : Option String) :
      Reachable st → Reachable (logout st now ck).2
  | doGetCurrentUser (st : Store) (now : Nat) (ck : Option String) :
      Reachable st → Reachable (getCurrentUser st now ck).2
  | doStartRegistration (st : Store) (now : Nat) (username ft : String) :
      Reachable st → Reachable (startRegistration st now username ft).2
  | doVerifyRegistration (st : Store) (now : Nat) (token aty : String)
      (re rp : Option String) (fs : List Nat) (fb : String) (fcs : List String) :
      Reachable st → Reachable (verifyRegistration st now token aty re rp fs fb fcs).2
  | doRecover (st : Store) (now : Nat) (username code : String)
      (fs : List Nat) (fb : String) (fcs : List String) :
      Reachable st → Reachable (recoverWithBackupCode st now username code fs fb fcs).2
  | doRequestMagicLink (st : Store) (now : Nat) (username ft : String) (ok : Bool) :
      Reachable st → Reachable (requestMagicLink st now username ft ok).2
  | doVerifyMagicLink (st : Store) (now : Nat) (token ft ua ip : String) :
      Reachable st → Reachable (verifyMagicLink st now token ft ua ip).2
  | doRegenerateCodes (st : Store) (now : Nat) (ck : Option String) (fcs : List String) :
      Reachable st → Reachable (regenerateCodes st now ck fcs).2
  | doUpdateContact (st : Store) (now : Nat) (ck : Option String)
      (ef pf : Option (Option String)) :
      Reachable st → Reachable (updateContact st now ck ef pf).2

/-- A concrete user for witnesses: TOTP user rectest1 without recovery
contact. -/
def userA : User :=
  ⟨1, "rectest1", AuthType.totp, [3, 1, 4], true, false, none, none, false, none⟩

/-- Concrete store: userA with one unused backup code AAAA-AAAA-AAAA-AAAA
(stored normalized). -/
def stWithCode : Store :=
  { Store.empty with
      users := [userA],
      backupCodes := [⟨1, "AAAAAAAAAAAAAAAA", none⟩],
      nextUserId := 2 }

/-- Concrete store: same shape as stWithCode with the user absent. -/
def stAbsent : Store := Store.empty

/-- A concrete user with a registered recovery email. -/
def userR : User :=
  ⟨1, "magicuser1", AuthType.totp, [7], true, false, some "r@example.com", none, true, none⟩

/-- Concrete store for magic-link witnesses. -/
def stMagic : Store :=
  { Store.empty with users := [userR], nextUserId := 2 }

/-- A concrete session of userA, last seen at time 0. -/
def sessA : Session :=
  ⟨1, "tokA", "ua", "ip", 0, 0⟩

/-- Concrete store with userA and sessA, for session-reaping witnesses. -/
def stSess : Store :=
  { Store.empty with users := [userA], sessions := [sessA], nextUserId := 2 }

/-- A concrete inbox message carrying a reply email. -/
def msgA : InboxMessage :=
  ⟨5, 1, "please email me", ReplyMethod.email, some "s@example.com", InboxStatus.unread, 0,
    none, none⟩

/-- Concrete store with one inbox message. -/
def stInbox : Store :=
  { Store.empty with users := [userA], inbox := [msgA], nextUserId := 2 }

/-- A concrete pending registration expiring at time 100. -/
def regA : PendingRegistration :=
  ⟨"flowuser1", "tokR", 0, 100⟩

/-- Concrete store with one pending registration. -/
def stReg : Store :=
  { Store.empty with pendingRegs := [regA] }

/-- The user that a successful verification of regA on stReg creates. -/
def uNew : User :=
  ⟨1, "flowuser1", AuthType.totp, [1], true, false, none, none, false, none⟩

/-- A store equal to two stores having the same sessions table satisfies
the session invariant together. -/
theorem sessInv_of_sessions_eq {st1 st2 : Store} (h : st2.sessions = st1.sessions)
    (h1 : SessInv st1) : SessInv st2 := by
  intro uid
  simpa [sessionCount, h] using h1 uid

/-- Filtering the sessions table preserves the session invariant. -/
theorem sessInv_filter (st : Store) (p : Session → Bool) (h : SessInv st) :
    SessInv { st with sessions := st.sessions.filter p } := by
  intro uid
  have hle : sessionCount { st with sessions := st.sessions.filter p } uid
      ≤ sessionCount st uid := by
    simp only [sessionCount, List.countP_filter]
    exact List.countP_mono_left (fun x _ hx => by
      rw [Bool.and_eq_true] at hx
      exact hx.1)
  exact le_trans hle (h uid)

/-- Mapping a user-id-preserving function over the sessions table
preserves the session invariant. -/
theorem sessInv_map (st : Store) (f : Session → Session)
    (hf : ∀ s, (f s).userId = s.userId) (h : SessInv st) :
    SessInv { st with sessions := st.sessions.map f } := by
  intro uid
  have heq : sessionCount { st with sessions := st.sessions.map f } uid
      = sessionCount st uid := by
    simp only [sessionCount, List.countP_map]
    congr 1
    funext s
    simp [hf s]
  rw [heq]
  exact h uid

/-- Session creation leaves at most one session for every user: the new
session for its owner, untouched (but still bounded) sessions for the
rest. -/
theorem sessInv_createForUser (st : Store) (uid now : Nat) (rt ua ip : String)
    (h : SessInv st) : SessInv (createForUser st uid now rt ua ip) := by
  intro v
  simp only [sessionCount, createForUser, List.countP_append]
  by_cases hv : v = uid
  · subst hv
    have h0 : (st.sessions.filter (fun s => s.userId != v)).countP
        (fun s => s.userId == v) = 0 := by
      rw [List.countP_eq_zero]
      intro a ha
      have hmem := (List.mem_filter.mp ha).2
      simp only [bne_iff_ne, ne_eq] at hmem
      simp [hmem]
    simp [h0, List.countP_cons]
  · have h1 : (([⟨uid, hash_token rt, ua, ip, now, now⟩] : List Session)).countP
        (fun s => s.userId == v) = 0 := by
      have hb : ((⟨uid, hash_token rt, ua, ip, now, now⟩ : Session).userId == v) = false := by
        simp only [beq_eq_false_iff_ne, ne_eq]
        exact fun hc => hv hc.symm
      simp [List.countP_cons, hb]
    rw [h1, Nat.add_zero]
    have hle : (st.sessions.filter (fun s => s.userId != uid)).countP
        (fun s => s.userId == v) ≤ st.sessions.countP (fun s => s.userId == v) := by
      simp only [List.countP_filter]
      exact List.countP_mono_left (fun x _ hx => by
      rw [Bool.and_eq_true] at hx
      exact hx.1)
    exact le_trans hle (h v)

/-- Touching a session does not change its owner. -/
theorem touch_userId (s : Session) (now : Nat) : (s.touch now).userId = s.userId := by
  unfold Session.touch
  split <;> rfl

/-- verify_and_consume writes only the backup-code table. -/
theorem sessions_verify_and_consume (st : Store) (uid : Nat) (c : String) (now : Nat) :
    (verify_and_consume st uid c now).2.sessions = st.sessions := by
  unfold verify_and_consume
  split <;> rfl

/-- Equation form of sessions_verify_and_consume for use after a split. -/
theorem sessions_of_verify_eq {st st1 : Store} {uid : Nat} {c : String} {now : Nat}
    {b : Bool} (h : verify_and_consume st uid c now = (b, st1)) :
    st1.sessions = st.sessions := by
  have hs := sessions_verify_and_consume st uid c now
  rw [h] at hs
  exact hs

/-- The login endpoint preserves the session invariant. -/
theorem sessInv_login (st : Store) (now : Nat) (username code : String)
    (vt : List Nat → String → Bool) (ft ua ip : String) (h : SessInv st) :
    SessInv (login st now username code vt ft ua ip).2 := by
  unfold login
  dsimp only
  split
  · exact h
  · split
    · exact h
    · split
      · split
        · exact sessInv_of_sessions_eq rfl (sessInv_createForUser st _ now ft ua ip h)
        · exact h
      · exact h

/-- Session resolution preserves the session invariant. -/
theorem sessInv_getCurrentUser (st : Store) (now : Nat) (ck : Option String)
    (h : SessInv st) : SessInv (getCurrentUser st now ck).2 := by
  unfold getCurrentUser
  split
  · exact h
  · split
    · exact h
    · split
      · exact sessInv_filter st _ h
      · split
        · exact sessInv_filter st _ h
        · refine sessInv_map st _ (fun s => ?_) h
          split
          · exact touch_userId _ _
          · rfl

/-- Logout preserves the session invariant. -/
theorem sessInv_logout (st : Store) (now : Nat) (ck : Option String)
    (h : SessInv st) : SessInv (logout st now ck).2 := by
  unfold logout
  dsimp only
  split
  · exact sessInv_filter _ _ (sessInv_getCurrentUser st now ck h)
  · exact sessInv_getCurrentUser st now ck h

/-- Starting a registration never writes the sessions table. -/
theorem sessions_startRegistration (st : Store) (now : Nat) (username ft : String) :
    (startRegistration st now username ft).2.sessions = st.sessions := by
  unfold startRegistration
  dsimp only
  split
  · rfl
  · split
    · rfl
    · split
      · rfl
      · split <;> rfl

/-- Completing a registration never writes the sessions table. -/
theorem sessions_verifyRegistration (st : Store) (now : Nat) (token aty : String)
    (re rp : Option String) (fs : List Nat) (fb : String) (fcs : List String) :
    (verifyRegistration st now token aty re rp fs fb fcs).2.sessions = st.sessions := by
  unfold verifyRegistration
  dsimp only
  split
  · rfl
  · split
    · rfl
    · split
      · rfl
      · split <;> rfl

/-- Requesting a magic link never writes the sessions table. -/
theorem sessions_requestMagicLink (st : Store) (now : Nat) (username ft : String)
    (ok : Bool) :
    (requestMagicLink st now username ft ok).2.sessions = st.sessions := by
  unfold requestMagicLink
  dsimp only
  split
  · rfl
  · split
    · rfl
    · split
      · rfl
      · split <;> rfl

/-- Registration start preserves the session invariant. -/
theorem sessInv_startRegistration (st : Store) (now : Nat) (username ft : String)
    (h : SessInv st) : SessInv (startRegistration st now username ft).2 :=
  sessInv_of_sessions_eq (sessions_startRegistration st now username ft) h

/-- Registration completion preserves the session invariant. -/
theorem sessInv_verifyRegistration (st : Store) (now : Nat) (token aty : String)
    (re rp : Option String) (fs : List Nat) (fb : String) (fcs : List String)
    (h : SessInv st) : SessInv (verifyRegistration st now token aty re rp fs fb fcs).2 :=
  sessInv_of_sessions_eq (sessions_verifyRegistration st now token aty re rp fs fb fcs) h

/-- Magic-link request preserves the session invariant. -/
theorem sessInv_requestMagicLink (st : Store) (now : Nat) (username ft : String)
    (ok : Bool) (h : SessInv st) : SessInv (requestMagicLink st now username ft ok).2 :=
  sessInv_of_sessions_eq (sessions_requestMagicLink st now username ft ok) h

/-- Backup-code recovery preserves the session invariant (it only ever
deletes sessions). -/
theorem sessInv_recover (st : Store) (now : Nat) (username code : String)
    (fs : List Nat) (fb : String) (fcs : List String) (h : SessInv st) :
    SessInv (recoverWithBackupCode st now username code fs fb fcs).2 := by
  unfold recoverWithBackupCode
  dsimp only
  split
  · exact h
  · split
    · exact h
    · split
      · exact h
      · rename_i st1 heq
        have hs1 := sessions_of_verify_eq heq
        refine sessInv_filter _ _ ?_
        exact @sessInv_of_sessions_eq st _ (by exact hs1) h

/-- Magic-link verification preserves the session invariant. -/
theorem sessInv_verifyMagicLink (st : Store) (now : Nat) (token ft ua ip : String)
    (h : SessInv st) : SessInv (verifyMagicLink st now token ft ua ip).2 := by
  unfold verifyMagicLink
  dsimp only
  split
  · exact h
  · split
    · exact h
    · split
      · exact h
      · split
        · exact h
        · split
          · exact h
          · refine sessInv_of_sessions_eq rfl (sessInv_createForUser _ _ now ft ua ip ?_)
            refine sessInv_filter _ _ ?_
            exact sessInv_of_sessions_eq rfl h

/-- Backup-code regeneration preserves the session invariant. -/
theorem sessInv_regenerateCodes (st : Store) (now : Nat) (ck : Option String)
    (fcs : List String) (h : SessInv st) :
    SessInv (regenerateCodes st now ck fcs).2 := by
  unfold regenerateCodes
  split
  · rename_i st1 heq
    have := sessInv_getCurrentUser st now ck h
    rw [heq] at this
    exact this
  · rename_i u st1 heq
    have h1 : SessInv st1 := by
      have := sessInv_getCurrentUser st now ck h
      rw [heq] at this
      exact this
    exact sessInv_of_sessions_eq rfl h1

/-- Recovery-contact update preserves the session invariant. -/
theorem sessInv_updateContact (st : Store) (now : Nat) (ck : Option String)
    (ef pf : Option (Option String)) (h : SessInv st) :
    SessInv (updateContact st now ck ef pf).2 := by
  unfold updateContact
  split
  · rename_i st1 heq
    have := sessInv_getCurrentUser st now ck h
    rw [heq] at this
    exact this
  · rename_i u st1 heq
    have h1 : SessInv st1 := by
      have := sessInv_getCurrentUser st now ck h
      rw [heq] at this
      exact this
    exact sessInv_of_sessions_eq rfl h1

/-- C2: in every reachable state, each user has at most one un-reaped
session; in particular session creation in login and magic-link
verification invalidates all existing sessions of the user atomically
with the creation, so no observer sees two simultaneously valid sessions
for the same user. -/
theorem single_session_invariant (st : Store) (h : Reachable st) :
    ∀ uid : Nat, sessionCount st uid ≤ 1 := by
  induction h with
  | emptyStore => intro uid; simp [sessionCount, Store.empty]
  | doLogin st now username code vt ft ua ip _ ih =>
      exact sessInv_login st now username code vt ft ua ip ih
  | doLogout st now ck _ ih => exact sessInv_logout st now ck ih
  | doGetCurrentUser st now ck _ ih => exact sessInv_getCurrentUser st now ck ih
  | doStartRegistration st now username ft _ ih =>
      exact sessInv_startRegistration st now username ft ih
  | doVerifyRegistration st now token aty re rp fs fb fcs _ ih =>
      exact sessInv_verifyRegistration st now token aty re rp fs fb fcs ih
  | doRecover st now username code fs fb fcs _ ih =>
      exact sessInv_recover st now username code fs fb fcs ih
  | doRequestMagicLink st now username ft ok _ ih =>
      exact sessInv_requestMagicLink st now username ft ok ih
  | doVerifyMagicLink st now token ft ua ip _ ih =>
      exact sessInv_verifyMagicLink st now token ft ua ip ih
  | doRegenerateCodes st now ck fcs _ ih => exact sessInv_regenerateCodes st now ck fcs ih
  | doUpdateContact st now ck ef pf _ ih => exact sessInv_updateContact st now ck ef pf ih

/-- Witness for C2 at a concrete reachable state: a store reached by a
registration followed by a login. -/
theorem single_session_invariant_witness :
    sessionCount
      (login
        (verifyRegistration (startRegistration Store.empty 0 "flowuser1" "tokR").2
          50 "tokR" "totp" none none [1] "B32" ["C1"]).2
        60 "flowuser1" "123456" (fun _ _ => true) "sessTok" "ua" "ip").2 1 ≤ 1 :=
  single_session_invariant _
    (Reachable.doLogin _ 60 "flowuser1" "123456" (fun _ _ => true) "sessTok" "ua" "ip"
      (Reachable.doVerifyRegistration _ 50 "tokR" "totp" none none [1] "B32" ["C1"]
        (Reachable.doStartRegistration Store.empty 0 "flowuser1" "tokR"
          Reachable.emptyStore))) 1

/-- C7 as stated is false: with direct remote address 127.0.0.1 and header
X-Forwarded-For 203.0.113.9 the claim (X-Forwarded-For[0] is the client
address whenever the header is present, allowed set 127.0.0.1 and ::1)
demands a 404 rejection, but the guard runs the handler, because it
consults X-Forwarded-For only when the direct remote address is not
local. -/
theorem localhost_guard_counterexample :
    spec_localhost_rejects "127.0.0.1" "203.0.113.9" = true ∧
      localhost_only_rejects "127.0.0.1" "203.0.113.9" = false := by
  constructor
  · rfl
  · rfl

/-- C7 amended: the guard rejects with 404 exactly when the direct remote
address is outside the allowed set 127.0.0.1, ::1, localhost, and either
X-Forwarded-For is absent or its first entry (stripped) is also outside
that set; when the direct remote address is local the header is never
consulted. -/
theorem localhost_guard_characterization (remoteAddr xff : String) :
    localhost_only_rejects remoteAddr xff =
      (!(["127.0.0.1", "::1", "localhost"].contains remoteAddr) &&
        (xff == "" ||
          !(["127.0.0.1", "::1", "localhost"].contains (pyStrip (firstCommaField xff))))) := by
  unfold localhost_only_rejects
  simp only [bne]
  cases hb : (["127.0.0.1", "::1", "localhost"].contains remoteAddr) with
  | false =>
    by_cases hx : xff = ""
    · subst hx
      simp at hb
      simp [hb.1, hb.2.1, hb.2.2]
    · simp [hb, hx]
  | true => simp [hb]

/-- C8: after mark_replied persists, the loaded message has status REPLIED
and a NULL reply email, for every message, reply-method and prior reply
email; both changes happen in the one state update modelling the single
transaction. -/
theorem mark_replied_clears_email (st : Store) (mid now : Nat) (m : InboxMessage)
    (hm : inboxGetById (markRepliedById st mid now) mid = some m) :
    m.status = InboxStatus.replied ∧ m.replyEmail = none := by
  unfold inboxGetById markRepliedById at hm
  dsimp only at hm
  rw [List.find?_map] at hm
  obtain ⟨x, hx, hfx⟩ := Option.map_eq_some'.mp hm
  have hpx := List.find?_some hx
  by_cases hid : (x.id == mid) = true
  · rw [← hfx]
    simp only [hid, if_pos]
    exact ⟨rfl, rfl⟩
  · exfalso
    simp only [Function.comp] at hpx
    rw [if_neg (by simpa using hid)] at hpx
    exact (by simpa using hid : ¬(x.id == mid) = true) hpx

/-- Witness for C8: marking msgA replied in stInbox at time 42. -/
theorem mark_replied_clears_email_witness :
    (msgA.mark_replied 42).status = InboxStatus.replied ∧
      (msgA.mark_replied 42).replyEmail = none :=
  mark_replied_clears_email stInbox 5 42 (msgA.mark_replied 42) (by decide)

/-- C10: every user in the store after POST /auth/register/verify either
already existed or was created with can_download true and is_admin false;
no request field can influence either flag. -/
theorem registration_creates_unprivileged_user (st : Store) (now : Nat)
    (token aty : String) (re rp : Option String) (fs : List Nat) (fb : String)
    (fcs : List String) :
    ∀ u ∈ (verifyRegistration st now token aty re rp fs fb fcs).2.users,
      u ∈ st.users ∨ (u.canDownload = true ∧ u.isAdmin = false) := by
  intro u hu
  unfold verifyRegistration at hu
  dsimp only at hu
  split at hu
  · exact Or.inl hu
  · split at hu
    · exact Or.inl hu
    · split at hu
      · exact Or.inl hu
      · split at hu
        · exact Or.inl hu
        · rw [show ∀ st2 : Store, ∀ th : String, (consumeReg st2 th).users = st2.users
              from fun _ _ => rfl] at hu
          rw [show ∀ st2 : Store, ∀ uid : Nat, ∀ cs : List String,
              (create_codes_for_user st2 uid cs).users = st2.users
              from fun _ _ _ => rfl] at hu
          dsimp only at hu
          rw [List.mem_append] at hu
          rcases hu with hu | hu
          · exact Or.inl hu
          · right
            rw [List.mem_singleton] at hu
            subst hu
            exact ⟨rfl, rfl⟩

/-- Witness for C10: the user created by verifying regA on stReg. -/
theorem registration_creates_unprivileged_user_witness :
    uNew ∈ (verifyRegistration stReg 50 "tokR" "totp" none none [1] "B32" ["C1"]).2.users ∧
      (uNew ∈ stReg.users ∨ (uNew.canDownload = true ∧ uNew.isAdmin = false)) :=
  ⟨by decide,
    registration_creates_unprivileged_user stReg 50 "tokR" "totp" none none [1] "B32" ["C1"]
      uNew (by decide)⟩

/-- After consuming a pending registration, its token no longer
resolves. -/
theorem regByToken_after_consume (st : Store) (reg : PendingRegistration)
    (tok : String) (hfind : regByToken st tok = some reg) :
    regByToken (consumeReg st reg.tokenHash) tok = none := by
  have hpred := List.find?_some hfind
  unfold regByToken consumeReg
  dsimp only
  rw [List.find?_eq_none]
  intro a ha
  have hmem := (List.mem_filter.mp ha).2
  simp only [bne_iff_ne, ne_eq] at hmem
  simp only [beq_iff_eq] at hpred ⊢
  intro hc
  exact hmem (hc.trans hpred.symm)

/-- C9: verifying a registration with a token that resolves to an expired
pending registration consumes (deletes) the pending registration while
returning the expired-token 400 error; a retry with the same token then
fails with the invalid-token message, because the token no longer
resolves. -/
theorem expired_token_consumed_on_failure (st : Store) (now now2 : Nat)
    (token aty : String) (re rp re2 rp2 : Option String) (fs fs2 : List Nat)
    (fb fb2 : String) (fcs fcs2 : List String) (reg : PendingRegistration)
    (htok : (pyStrip token == "") = false)
    (haty : pyLower (pyStrip aty) = "totp")
    (hfind : regByToken st (pyStrip token) = some reg)
    (hexp : reg.is_expired now = true) :
    verifyRegistration st now token aty re rp fs fb fcs
        = (⟨400, .errorMsg "Verification token has expired"⟩, consumeReg st reg.tokenHash) ∧
      verifyRegistration (consumeReg st reg.tokenHash) now2 token aty re2 rp2 fs2 fb2 fcs2
        = (⟨400, .errorMsg "Invalid or expired verification token"⟩,
            consumeReg st reg.tokenHash) := by
  have haty2 : (pyLower (pyStrip aty) != "totp") = false := by
    simp [haty]
  constructor
  · unfold verifyRegistration
    dsimp only
    rw [htok]
    simp only [Bool.false_eq_true, if_false]
    rw [haty2]
    simp only [Bool.false_eq_true, if_false]
    rw [hfind]
    simp [hexp]
  · unfold verifyRegistration
    dsimp only
    rw [htok]
    simp only [Bool.false_eq_true, if_false]
    rw [haty2]
    simp only [Bool.false_eq_true, if_false]
    rw [regByToken_after_consume st reg (pyStrip token) hfind]

/-- Witness for C9: the expired registration regA in stReg at time 200. -/
theorem expired_token_consumed_on_failure_witness :
    verifyRegistration stReg 200 "tokR" "totp" none none [1] "B32" ["C1"]
        = (⟨400, .errorMsg "Verification token has expired"⟩, consumeReg stReg regA.tokenHash) ∧
      verifyRegistration (consumeReg stReg regA.tokenHash) 300 "tokR" "totp" none none
          [2] "B33" ["C2"]
        = (⟨400, .errorMsg "Invalid or expired verification token"⟩,
            consumeReg stReg regA.tokenHash) :=
  expired_token_consumed_on_failure stReg 200 300 "tokR" "totp" none none none none
    [1] [2] "B32" "B33" ["C1"] ["C2"] regA (by decide) (by decide) (by decide) (by decide)

/-- Touching a session does not change its stored token hash. -/
theorem touch_tokenHash (s : Session) (now : Nat) :
    (s.touch now).tokenHash = s.tokenHash := by
  unfold Session.touch
  split <;> rfl

/-- C6: a request whose cookie resolves to a session with last_seen older
than the 30-minute grace is treated as unauthenticated and the session is
deleted on that read; a session within the grace is not deleted by this
path (it survives, touched), so a session persists while the user stays
active. -/
theorem stale_session_reaping (st : Store) (now : Nat) (tok : String) (s : Session)
    (hfind : sessionByToken st tok = some s) :
    (s.is_stale now 30 = true →
      (getCurrentUser st now (some tok)).1 = none ∧
        ((getCurrentUser st now (some tok)).2.sessions.all
          (fun t => t.tokenHash != s.tokenHash)) = true) ∧
      (s.is_stale now 30 = false →
        ∀ u, getUserById st s.userId = some u →
          (getCurrentUser st now (some tok)).1 = some u ∧
            ((getCurrentUser st now (some tok)).2.sessions.any
              (fun t => t.tokenHash == s.tokenHash)) = true) := by
  constructor
  · intro hstale
    unfold getCurrentUser
    dsimp only
    rw [hfind]
    simp only [hstale, if_true]
    refine ⟨by simp, ?_⟩
    unfold invalidateSession
    dsimp only
    rw [List.all_eq_true]
    intro t ht
    exact (List.mem_filter.mp ht).2
  · intro hfresh u hu
    unfold getCurrentUser
    dsimp only
    rw [hfind]
    simp only [hfresh, Bool.false_eq_true, if_false]
    rw [hu]
    refine ⟨by simp, ?_⟩
    unfold touchSession
    dsimp only
    rw [List.any_eq_true]
    refine ⟨(fun t => if t.tokenHash == s.tokenHash then t.touch now else t) s, ?_, ?_⟩
    · exact List.mem_map_of_mem _ (List.mem_of_find?_eq_some hfind)
    · simp [touch_tokenHash]

/-- Witness for C6 (stale branch): sessA, last seen at 0, read at 2000. -/
theorem stale_session_reaping_witness :
    (getCurrentUser stSess 2000 (some "tokA")).1 = none ∧
      ((getCurrentUser stSess 2000 (some "tokA")).2.sessions.all
        (fun t => t.tokenHash != sessA.tokenHash)) = true :=
  (stale_session_reaping stSess 2000 "tokA" sessA (by decide)).1 (by decide)

/-- C5: POST /auth/magic-link answers the generic success message whenever
the username is nonempty - also when the email send fails - and creates a
pending-recovery row (15-minute TTL, replacing prior rows of the user)
exactly when the user exists with recovery enabled and a nonempty
recovery email; in every other case the store is unchanged. -/
theorem magic_link_row_creation (st : Store) (now : Nat) (username ft : String)
    (sendOk : Bool) (hu : (pyStrip username == "") = false) :
    (requestMagicLink st now username ft sendOk).1
        = ⟨200, .simpleSuccess genericMagicMessage⟩ ∧
      (match getByUsername st (pyStrip username) with
        | none => (requestMagicLink st now username ft sendOk).2 = st
        | some user =>
          if (user.recoveryEnabled &&
              (match user.recoveryEmail with | none => false | some e => e != "")) = true then
            (requestMagicLink st now username ft sendOk).2.pendingRecoveries
              = (st.pendingRecoveries.filter (fun r => r.userId != user.id)) ++
                  [⟨user.id, hash_token ft, now + 15 * 60, none⟩]
          else (requestMagicLink st now username ft sendOk).2 = st) := by
  unfold requestMagicLink
  dsimp only
  rw [hu]
  simp only [Bool.false_eq_true, if_false]
  cases hg : getByUsername st (pyStrip username) with
  | none => simp
  | some user =>
    cases hen : user.recoveryEnabled with
    | false => simp [hen]
    | true =>
      cases hre : user.recoveryEmail with
      | none => simp [hen, hre]
      | some e =>
        by_cases he : e = ""
        · subst he
          simp [hen, hre]
        · cases sendOk <;>
            simp [hen, hre, he, createRecovery, deleteRecoveriesForUser]

/-- Witness for C5: userR has a recovery email, the send fails, the row is
still created and the response is the generic success. -/
theorem magic_link_row_creation_witness :
    (requestMagicLink stMagic 100 "magicuser1" "rt1" false).1
        = ⟨200, .simpleSuccess genericMagicMessage⟩ ∧
      (match getByUsername stMagic (pyStrip "magicuser1") with
        | none => (requestMagicLink stMagic 100 "magicuser1" "rt1" false).2 = stMagic
        | some user =>
          if (user.recoveryEnabled &&
              (match user.recoveryEmail with | none => false | some e => e != "")) = true then
            (requestMagicLink stMagic 100 "magicuser1" "rt1" false).2.pendingRecoveries
              = (stMagic.pendingRecoveries.filter (fun r => r.userId != user.id)) ++
                  [⟨user.id, hash_token "rt1", 100 + 15 * 60, none⟩]
          else (requestMagicLink stMagic 100 "magicuser1" "rt1" false).2 = stMagic) :=
  magic_link_row_creation stMagic 100 "magicuser1" "rt1" false (by decide)

/-- consumeFirst fails exactly when no unused matching code exists. -/
theorem consumeFirst_eq_none_iff (codes : List BackupCode) (uid : Nat) (norm : String)
    (now : Nat) :
    consumeFirst codes uid norm now = none ↔
      codes.countP (unusedMatch uid norm) = 0 := by
  induction codes with
  | nil => simp [consumeFirst]
  | cons b rest ih =>
    cases hb : unusedMatch uid norm b with
    | true => simp [consumeFirst, hb, List.countP_cons]
    | false =>
      have hstep : consumeFirst (b :: rest) uid norm now
          = (match consumeFirst rest uid norm now with
              | none => none
              | some rest2 => some (b :: rest2)) := by
        simp [consumeFirst, hb]
      rw [hstep, List.countP_cons, hb]
      simp only [Bool.false_eq_true, if_false, Nat.add_zero]
      rw [← ih]
      cases h : consumeFirst rest uid norm now <;> simp

/-- A used row never counts as an unused match. -/
theorem unusedMatch_marked (uid : Nat) (norm : String) (b : BackupCode) (now : Nat) :
    unusedMatch uid norm { b with usedAt := some now } = false := by
  unfold unusedMatch
  simp

/-- An unused match is in particular a match. -/
theorem matchesCode_of_unusedMatch {uid : Nat} {norm : String} {b : BackupCode}
    (h : unusedMatch uid norm b = true) : matchesCode uid norm b = true := by
  unfold unusedMatch at h
  rw [Bool.and_eq_true] at h
  exact h.1

/-- When at most one row matches the code, a successful consumption leaves
no unused matching row behind. -/
theorem consumeFirst_consumes (codes : List BackupCode) (uid : Nat) (norm : String)
    (now : Nat) (codes2 : List BackupCode)
    (h : consumeFirst codes uid norm now = some codes2)
    (huniq : codes.countP (matchesCode uid norm) ≤ 1) :
    codes2.countP (unusedMatch uid norm) = 0 := by
  induction codes generalizing codes2 with
  | nil => simp [consumeFirst] at h
  | cons b rest ih =>
    cases hb : unusedMatch uid norm b with
    | true =>
      have hsome : consumeFirst (b :: rest) uid norm now
          = some ({ b with usedAt := some now } :: rest) := by
        simp [consumeFirst, hb]
      rw [hsome] at h
      injection h with h2
      subst h2
      have hms : matchesCode uid norm b = true := matchesCode_of_unusedMatch hb
      have hrest : rest.countP (matchesCode uid norm) = 0 := by
        rw [List.countP_cons, hms, if_pos rfl] at huniq
        omega
      have hle : rest.countP (unusedMatch uid norm)
          ≤ rest.countP (matchesCode uid norm) :=
        List.countP_mono_left (fun x _ hx => matchesCode_of_unusedMatch hx)
      rw [List.countP_cons, unusedMatch_marked]
      simp only [Bool.false_eq_true, if_false, Nat.add_zero]
      omega
    | false =>
      have hstep : consumeFirst (b :: rest) uid norm now
          = (match consumeFirst rest uid norm now with
              | none => none
              | some rest2 => some (b :: rest2)) := by
        simp [consumeFirst, hb]
      rw [hstep] at h
      cases hc : consumeFirst rest uid norm now with
      | none =>
        rw [hc] at h
        simp at h
      | some rest2 =>
        rw [hc] at h
        simp only [Option.some.injEq] at h
        subst h
        have huniq2 : rest.countP (matchesCode uid norm) ≤ 1 := by
          rw [List.countP_cons] at huniq
          omega
        rw [List.countP_cons, hb]
        simp only [Bool.false_eq_true, if_false, Nat.add_zero]
        exact ih rest2 hc huniq2

/-- verify_and_consume fails and leaves the store unchanged when no unused
matching code exists. -/
theorem verify_false_of_no_unused (st : Store) (uid : Nat) (code : String) (now : Nat)
    (h : st.backupCodes.countP (unusedMatch uid (normalize_code code)) = 0) :
    verify_and_consume st uid code now = (false, st) := by
  unfold verify_and_consume
  rw [(consumeFirst_eq_none_iff st.backupCodes uid (normalize_code code) now).mpr h]

/-- verify_and_consume never touches the user table. -/
theorem users_verify_and_consume (st : Store) (uid : Nat) (c : String) (now : Nat) :
    (verify_and_consume st uid c now).2.users = st.users := by
  unfold verify_and_consume
  split <;> rfl

/-- Regenerating codes whose normalized plaintext differs from the
candidate introduces no unused match for the candidate. -/
theorem no_unused_after_create_codes (st : Store) (uid : Nat) (norm : String)
    (fcs : List String)
    (h0 : st.backupCodes.countP (unusedMatch uid norm) = 0)
    (hfresh : ∀ c ∈ fcs, normalize_code c ≠ norm) :
    (create_codes_for_user st uid fcs).backupCodes.countP (unusedMatch uid norm) = 0 := by
  unfold create_codes_for_user
  dsimp only
  rw [List.countP_append]
  have h1 : (st.backupCodes.filter
      (fun b => !(b.userId == uid && b.usedAt == none))).countP (unusedMatch uid norm) = 0 := by
    have hle : (st.backupCodes.filter
        (fun b => !(b.userId == uid && b.usedAt == none))).countP (unusedMatch uid norm)
        ≤ st.backupCodes.countP (unusedMatch uid norm) := by
      simp only [List.countP_filter]
      exact List.countP_mono_left (fun x _ hx => by
        rw [Bool.and_eq_true] at hx
        exact hx.1)
    omega
  have h2 : (fcs.map (fun c => (⟨uid, normalize_code c, none⟩ : BackupCode))).countP
      (unusedMatch uid norm) = 0 := by
    rw [List.countP_eq_zero]
    intro b hb
    rw [List.mem_map] at hb
    obtain ⟨c, hc, rfl⟩ := hb
    unfold unusedMatch matchesCode
    simp [hfresh c hc]
  rw [h1, h2]

/-- Looking a user up by name after mapping a username-preserving update
over the user table finds the updated user. -/
theorem find_username_map (users : List User) (uname : String) (f : User → User)
    (hf : ∀ u, (f u).username = u.username) :
    (users.map f).find? (fun u => u.username == uname)
      = (users.find? (fun u => u.username == uname)).map f := by
  rw [List.find?_map]
  have hp : ((fun u : User => u.username == uname) ∘ f)
      = (fun u : User => u.username == uname) := by
    funext u
    simp [Function.comp, hf u]
  rw [hp]

/-- Credential rotation does not change the username of a row. -/
theorem rotateCredUser_username (uid : Nat) (secret : List Nat) (u : User) :
    (rotateCredUser uid secret u).username = u.username := by
  unfold rotateCredUser
  split <;> rfl

/-- Credential rotation does not change the id of a row. -/
theorem rotateCredUser_id (uid : Nat) (secret : List Nat) (u : User) :
    (rotateCredUser uid secret u).id = u.id := by
  unfold rotateCredUser
  split <;> rfl

/-- C3: a backup code is consumable exactly once: when the recovery
endpoint succeeds for a user whose issued codes are pairwise distinct and
whose fresh replacement codes differ from the consumed one, the resulting
store holds no unused row for that code, and a repeat request with the
same username and code - at any later time, with any fresh randomness -
answers the generic 401 and leaves the store unchanged, so every further
retry fails identically. -/
theorem backup_code_single_use (st : Store) (now : Nat) (username code : String)
    (fs : List Nat) (fb : String) (fcs : List String) (user : User)
    (hne1 : (pyStrip username == "") = false)
    (hne2 : (pyStrip code == "") = false)
    (huser : getByUsername st (pyStrip username) = some user)
    (hcons : (verify_and_consume st user.id (pyStrip code) now).1 = true)
    (huniq : st.backupCodes.countP
        (matchesCode user.id (normalize_code (pyStrip code))) ≤ 1)
    (hfresh : ∀ c ∈ fcs, normalize_code c ≠ normalize_code (pyStrip code)) :
    (recoverWithBackupCode st now username code fs fb fcs).1.status = 200 ∧
      ∀ (now2 : Nat) (fs2 : List Nat) (fb2 : String) (fcs2 : List String),
        recoverWithBackupCode (recoverWithBackupCode st now username code fs fb fcs).2
            now2 username code fs2 fb2 fcs2
          = (⟨401, .errorMsg "Invalid username or backup code"⟩,
              (recoverWithBackupCode st now username code fs fb fcs).2) := by
  cases hcf : consumeFirst st.backupCodes user.id (normalize_code (pyStrip code)) now with
  | none =>
    exfalso
    unfold verify_and_consume at hcons
    rw [hcf] at hcons
    simp at hcons
  | some codes2 =>
    have hv : verify_and_consume st user.id (pyStrip code) now
        = (true, { st with backupCodes := codes2 }) := by
      unfold verify_and_consume
      rw [hcf]
    have hrec : recoverWithBackupCode st now username code fs fb fcs
        = (⟨200, .recoverSuccess user.username fb fcs
              (get_remaining_count { st with backupCodes := codes2 } user.id)⟩,
            invalidate_user_sessions
              (create_codes_for_user
                (saveUserCredential { st with backupCodes := codes2 } user.id fs)
                user.id fcs)
              user.id) := by
      unfold recoverWithBackupCode
      dsimp only
      rw [hne1, hne2]
      simp only [Bool.or_false, Bool.false_eq_true, if_false]
      rw [huser]
      dsimp only
      rw [hv]
    have hcodes2 : codes2.countP
        (unusedMatch user.id (normalize_code (pyStrip code))) = 0 :=
      consumeFirst_consumes st.backupCodes user.id (normalize_code (pyStrip code))
        now codes2 hcf huniq
    have hst1codes : (invalidate_user_sessions
        (create_codes_for_user
          (saveUserCredential { st with backupCodes := codes2 } user.id fs)
          user.id fcs)
        user.id).backupCodes.countP
          (unusedMatch user.id (normalize_code (pyStrip code))) = 0 := by
      have := no_unused_after_create_codes
        (saveUserCredential { st with backupCodes := codes2 } user.id fs)
        user.id (normalize_code (pyStrip code)) fcs (by exact hcodes2) hfresh
      exact this
    have hfind2 : getByUsername
        (invalidate_user_sessions
          (create_codes_for_user
            (saveUserCredential { st with backupCodes := codes2 } user.id fs)
            user.id fcs)
          user.id) (pyStrip username)
        = some (rotateCredUser user.id fs user) := by
      unfold getByUsername
      rw [show (invalidate_user_sessions
          (create_codes_for_user
            (saveUserCredential { st with backupCodes := codes2 } user.id fs)
            user.id fcs)
          user.id).users = st.users.map (rotateCredUser user.id fs) from rfl]
      rw [find_username_map st.users (pyStrip username) (rotateCredUser user.id fs)
        (rotateCredUser_username user.id fs)]
      unfold getByUsername at huser
      rw [huser]
      rfl
    constructor
    · rw [hrec]
    · intro now2 fs2 fb2 fcs2
      rw [hrec]
      dsimp only
      unfold recoverWithBackupCode
      dsimp only
      rw [hne1, hne2]
      simp only [Bool.or_false, Bool.false_eq_true, if_false]
      rw [hfind2]
      dsimp only
      rw [rotateCredUser_id]
      rw [verify_false_of_no_unused _ user.id (pyStrip code) now2 hst1codes]

/-- Witness for C3: consuming the single code of stWithCode, then a retry
with the same code. -/
theorem backup_code_single_use_witness :
    (recoverWithBackupCode stWithCode 5 "rectest1" "AAAA-AAAA-AAAA-AAAA"
        [9] "B32" ["NEW1"]).1.status = 200 ∧
      recoverWithBackupCode
          (recoverWithBackupCode stWithCode 5 "rectest1" "AAAA-AAAA-AAAA-AAAA"
            [9] "B32" ["NEW1"]).2
          6 "rectest1" "AAAA-AAAA-AAAA-AAAA" [10] "B33" ["NEW2"]
        = (⟨401, .errorMsg "Invalid username or backup code"⟩,
            (recoverWithBackupCode stWithCode 5 "rectest1" "AAAA-AAAA-AAAA-AAAA"
              [9] "B32" ["NEW1"]).2) :=
  ⟨(backup_code_single_use stWithCode 5 "rectest1" "AAAA-AAAA-AAAA-AAAA" [9] "B32"
      ["NEW1"] userA (by decide) (by decide) (by decide) (by decide) (by decide)
      (by decide)).1,
    (backup_code_single_use stWithCode 5 "rectest1" "AAAA-AAAA-AAAA-AAAA" [9] "B32"
      ["NEW1"] userA (by decide) (by decide) (by decide) (by decide) (by decide)
      (by decide)).2 6 [10] "B33" ["NEW2"]⟩

/-- However many of the post-consumption steps complete, the backup-code
table never regains an unused row for the consumed code. -/
theorem backupCodes_recoverAfterConsume (st1 : Store) (uid : Nat) (fs : List Nat)
    (fcs : List String) (completed : Nat) (norm : String)
    (h0 : st1.backupCodes.countP (unusedMatch uid norm) = 0)
    (hfresh : ∀ c ∈ fcs, normalize_code c ≠ norm) :
    (recoverAfterConsume st1 uid fs fcs completed).backupCodes.countP
      (unusedMatch uid norm) = 0 := by
  unfold recoverAfterConsume
  dsimp only
  by_cases h1 : 1 ≤ completed <;> by_cases h2 : 2 ≤ completed <;>
    by_cases h3 : 3 ≤ completed <;>
    simp only [h1, h2, h3, if_true, if_false] <;>
    first
      | exact no_unused_after_create_codes _ _ _ fcs (by exact h0) hfresh
      | exact h0

/-- C1 as stated is false on the code: on stWithCode the backup code is
consumed, and when the handler stops after completing only the
credential-rotation step (completed = 1), the observable store keeps the
code marked used - it is not restored to unused - and differs from the
pre-request store, so nothing was rolled back. -/
theorem recovery_not_atomic_counterexample :
    (verify_and_consume stWithCode 1 "AAAA-AAAA-AAAA-AAAA" 5).1 = true ∧
      (recoverObservedOnFailure stWithCode 5 "rectest1" "AAAA-AAAA-AAAA-AAAA"
          [9] ["NEW1"] 1).backupCodes.countP (unusedMatch 1 "AAAAAAAAAAAAAAAA") = 0 ∧
      recoverObservedOnFailure stWithCode 5 "rectest1" "AAAA-AAAA-AAAA-AAAA"
          [9] ["NEW1"] 1 ≠ stWithCode := by
  refine ⟨by decide, by decide, by decide⟩

/-- C1 amended: the post-consumption steps of recover_with_backup_code run
as separate repository transactions with no enclosing transaction, so when
any of them fails the already-committed effects persist; in particular the
consumed backup code stays marked used - it is never restored to unused -
whatever number of follow-up steps completed. -/
theorem recovery_steps_commit_independently (st : Store) (now : Nat)
    (username code : String) (fs : List Nat) (fcs : List String) (completed : Nat)
    (user : User)
    (huser : getByUsername st (pyStrip username) = some user)
    (hcons : (verify_and_consume st user.id (pyStrip code) now).1 = true)
    (huniq : st.backupCodes.countP
        (matchesCode user.id (normalize_code (pyStrip code))) ≤ 1)
    (hfresh : ∀ c ∈ fcs, normalize_code c ≠ normalize_code (pyStrip code)) :
    (recoverObservedOnFailure st now username code fs fcs completed).backupCodes.countP
      (unusedMatch user.id (normalize_code (pyStrip code))) = 0 := by
  cases hcf : consumeFirst st.backupCodes user.id (normalize_code (pyStrip code)) now with
  | none =>
    exfalso
    unfold verify_and_consume at hcons
    rw [hcf] at hcons
    simp at hcons
  | some codes2 =>
    have hv : verify_and_consume st user.id (pyStrip code) now
        = (true, { st with backupCodes := codes2 }) := by
      unfold verify_and_consume
      rw [hcf]
    have hcodes2 : codes2.countP
        (unusedMatch user.id (normalize_code (pyStrip code))) = 0 :=
      consumeFirst_consumes st.backupCodes user.id (normalize_code (pyStrip code))
        now codes2 hcf huniq
    unfold recoverObservedOnFailure
    rw [huser]
    dsimp only
    rw [hv]
    dsimp only
    exact backupCodes_recoverAfterConsume { st with backupCodes := codes2 } user.id
      fs fcs completed _ (by exact hcodes2) hfresh

/-- Witness for the amended C1 at stWithCode with one completed step. -/
theorem recovery_steps_commit_independently_witness :
    (recoverObservedOnFailure stWithCode 5 "rectest1" "AAAA-AAAA-AAAA-AAAA"
        [9] ["NEW1"] 1).backupCodes.countP
      (unusedMatch userA.id (normalize_code (pyStrip "AAAA-AAAA-AAAA-AAAA"))) = 0 :=
  recovery_steps_commit_independently stWithCode 5 "rectest1" "AAAA-AAAA-AAAA-AAAA"
    [9] ["NEW1"] 1 userA (by decide) (by decide) (by decide) (by decide)

/-- C4 as stated is false: for the fixed request body naming rectest1 with
its valid backup code, the user-exists run answers the 200 recovery body
while the user-absent run answers the 401 error body, so the two response
bodies are not byte-identical; only failing credentials are
indistinguishable. -/
theorem indistinguishability_counterexample :
    (recoverWithBackupCode stWithCode 5 "rectest1" "AAAA-AAAA-AAAA-AAAA"
        [9] "B32" ["NEW1"]).1.body.render
      ≠ (recoverWithBackupCode stAbsent 5 "rectest1" "AAAA-AAAA-AAAA-AAAA"
        [9] "B32" ["NEW1"]).1.body.render := by
  decide

/-- C4 amended: for every fixed request body whose credential fails to
verify - a TOTP code the verifier rejects for login, a backup code that
does not consume for recovery, the user being a TOTP user - the responses
of POST /login and POST /recover/backup-code are the same constant 401
bodies in the user-exists run and the user-absent run, and POST
/magic-link answers the identical generic success in both runs
unconditionally; with a verifying credential the 200 body of the
user-exists run necessarily differs. -/
theorem failure_responses_indistinguishable
    (stA stP : Store) (user : User) (username : String)
    (nowL nowL2 nowR nowR2 nowM nowM2 : Nat)
    (code bcode : String) (vtA vtP : List Nat → String → Bool)
    (ftA ftP uaA uaP ipA ipP : String)
    (fsA fsP : List Nat) (fbA fbP : String) (fcsA fcsP : List String)
    (mtA mtP : String) (okA okP : Bool)
    (hne : (pyStrip username == "") = false)
    (hcne : (pyStrip code == "") = false)
    (hbne : (pyStrip bcode == "") = false)
    (habs : getByUsername stA (pyStrip username) = none)
    (hpres : getByUsername stP (pyStrip username) = some user)
    (htotp : user.authType = AuthType.totp)
    (hvt : vtP user.authCredential (pyStrip code) = false)
    (hver : (verify_and_consume stP user.id (pyStrip bcode) nowR2).1 = false) :
    ((login stA nowL username code vtA ftA uaA ipA).1
          = ⟨401, .errorMsg "Invalid credentials"⟩ ∧
        (login stP nowL2 username code vtP ftP uaP ipP).1
          = ⟨401, .errorMsg "Invalid credentials"⟩) ∧
      ((recoverWithBackupCode stA nowR username bcode fsA fbA fcsA).1
          = ⟨401, .errorMsg "Invalid username or backup code"⟩ ∧
        (recoverWithBackupCode stP nowR2 username bcode fsP fbP fcsP).1
          = ⟨401, .errorMsg "Invalid username or backup code"⟩) ∧
      ((requestMagicLink stA nowM username mtA okA).1
          = ⟨200, .simpleSuccess genericMagicMessage⟩ ∧
        (requestMagicLink stP nowM2 username mtP okP).1
          = ⟨200, .simpleSuccess genericMagicMessage⟩) := by
  have hmagic : ∀ (s : Store) (nowX : Nat) (mt : String) (ok : Bool),
      (requestMagicLink s nowX username mt ok).1
        = ⟨200, .simpleSuccess genericMagicMessage⟩ := by
    intro s nowX mt ok
    unfold requestMagicLink
    dsimp only
    rw [hne]
    simp only [Bool.false_eq_true, if_false]
    split
    · rfl
    · split
      · rfl
      · split <;> rfl
  have hverFull : verify_and_consume stP user.id (pyStrip bcode) nowR2 = (false, stP) := by
    cases hcf : consumeFirst stP.backupCodes user.id (normalize_code (pyStrip bcode))
        nowR2 with
    | none =>
      unfold verify_and_consume
      rw [hcf]
    | some codes2 =>
      exfalso
      unfold verify_and_consume at hver
      rw [hcf] at hver
      simp at hver
  refine ⟨⟨?_, ?_⟩, ⟨?_, ?_⟩, hmagic stA nowM mtA okA, hmagic stP nowM2 mtP okP⟩
  · unfold login
    dsimp only
    rw [hne, hcne]
    simp only [Bool.or_false, Bool.false_eq_true, if_false]
    rw [habs]
  · unfold login
    dsimp only
    rw [hne, hcne]
    simp only [Bool.or_false, Bool.false_eq_true, if_false]
    rw [hpres]
    dsimp only
    rw [htotp]
    simp only [if_pos rfl]
    rw [hvt]
    simp
  · unfold recoverWithBackupCode
    dsimp only
    rw [hne, hbne]
    simp only [Bool.or_false, Bool.false_eq_true, if_false]
    rw [habs]
  · unfold recoverWithBackupCode
    dsimp only
    rw [hne, hbne]
    simp only [Bool.or_false, Bool.false_eq_true, if_false]
    rw [hpres]
    dsimp only
    rw [hverFull]

/-- Witness for the amended C4: rectest1 with a rejected TOTP code and a
non-matching backup code, against stWithCode and the empty store. -/
theorem failure_responses_indistinguishable_witness :
    ((login stAbsent 1 "rectest1" "000000" (fun _ _ => false) "t1" "ua" "ip").1
          = ⟨401, .errorMsg "Invalid credentials"⟩ ∧
        (login stWithCode 2 "rectest1" "000000" (fun _ _ => false) "t2" "ua" "ip").1
          = ⟨401, .errorMsg "Invalid credentials"⟩) ∧
      ((recoverWithBackupCode stAbsent 3 "rectest1" "BBBB-BBBB-BBBB-BBBB"
            [5] "B1" ["N1"]).1
          = ⟨401, .errorMsg "Invalid username or backup code"⟩ ∧
        (recoverWithBackupCode stWithCode 4 "rectest1" "BBBB-BBBB-BBBB-BBBB"
            [6] "B2" ["N2"]).1
          = ⟨401, .errorMsg "Invalid username or backup code"⟩) ∧
      ((requestMagicLink stAbsent 5 "rectest1" "m1" true).1
          = ⟨200, .simpleSuccess genericMagicMessage⟩ ∧
        (requestMagicLink stWithCode 6 "rectest1" "m2" false).1
          = ⟨200, .simpleSuccess genericMagicMessage⟩) :=
  failure_responses_indistinguishable stAbsent stWithCode userA "rectest1"
    1 2 3 4 5 6 "000000" "BBBB-BBBB-BBBB-BBBB" (fun _ _ => false) (fun _ _ => false)
    "t1" "t2" "ua" "ua" "ip" "ip" [5] [6] "B1" "B2" ["N1"] ["N2"] "m1" "m2" true false
    (by decide) (by decide) (by decide) (by decide) (by decide) (by decide)
    (by decide) (by decide)

end AuthSpec
